import Mathlib

/-!
Verification of the Flutter Windows plugin registration shim found in
`src/windows/code_plugin_c_api.cpp` and `src/windows/code_plugin.h` of the
drawing_board_hook repository.

Two embeddings are used:
- an effect-trace semantics for the C-linkage entry point
  `CodePluginCApiRegisterWithRegistrar` (what the function does, in order,
  to the observable world), and
- a syntactic model of the class declaration in `code_plugin.h` (which
  members exist, their kinds, virtual/deleted flags, and whether a body is
  present in the provided files), for the structural claims.
-/

namespace DrawingBoardHook

/-- Opaque registrar handle (`FlutterDesktopPluginRegistrarRef`); `none`
models a null pointer, `some n` a non-null handle with address `n`. -/
abbrev FlutterDesktopPluginRegistrarRef := Option Nat

/-- Typed Windows registrar (`flutter::PluginRegistrarWindows`), as obtained
from the registrar manager for a given opaque handle. -/
structure PluginRegistrarWindows where
  handle : FlutterDesktopPluginRegistrarRef
deriving DecidableEq, Repr

/-- The plugin registrar manager (`flutter::PluginRegistrarManager`),
identified by which instance it is. -/
structure PluginRegistrarManager where
  instanceId : Nat
deriving DecidableEq, Repr

/-- `PluginRegistrarManager::GetInstance()` returns the process-wide
singleton manager: every call yields the same instance. -/
def PluginRegistrarManager.GetInstance : PluginRegistrarManager := ⟨0⟩

/-- `GetRegistrar<flutter::PluginRegistrarWindows>(registrar)` resolves an
opaque handle into the typed Windows registrar wrapping it. -/
def PluginRegistrarManager.GetRegistrar (_m : PluginRegistrarManager)
    (h : FlutterDesktopPluginRegistrarRef) : PluginRegistrarWindows :=
  ⟨h⟩

/-- Observable program state crossed by the shim. The host framework owns
`channels`, the registry of method channels keyed by registrar and channel
name; `files` and `env` stand for filesystem and environment state that this
repository could in principle own but never touches. -/
structure World where
  channels : List (PluginRegistrarWindows × String)
  files : List String
  env : List (String × String)
deriving DecidableEq, Repr

/-- One observable action of the C API entry point. -/
inductive Step where
  | resolveRegistrar (manager : PluginRegistrarManager)
      (handle : FlutterDesktopPluginRegistrarRef)
  | registerPlugin (registrar : PluginRegistrarWindows)
deriving DecidableEq, Repr

/-- Modelled from the spec: the method channel is named by convention and the
name is not shown in the provided files (spec section 6). Any fixed name
plays the same role in the model. -/
def codeChannelName : String := "code"

/-- Modelled from the spec: the translation unit defining
`CodePlugin::RegisterWithRegistrar` is not among the provided files (only
its declaration in `code_plugin.h` line 13 is). Per the spec, registration
with a registrar must not fail and must make the plugin channel reachable by
the host dispatch mechanism, so it records the channel with the framework
registry and reports no error. -/
def CodePlugin.RegisterWithRegistrar (registrar : PluginRegistrarWindows)
    (w : World) : Except String World :=
  Except.ok { w with channels := (registrar, codeChannelName) :: w.channels }

/-- The C-linkage entry point of `src/windows/code_plugin_c_api.cpp`,
lines 7-12. Its body is a single statement: it resolves the opaque handle
through the singleton manager and invokes
`CodePlugin::RegisterWithRegistrar` on the typed registrar. The returned
trace records every action the entry point performs, in order; the C
function itself returns void, so its whole meaning is these effects. -/
def CodePluginCApiRegisterWithRegistrar
    (registrar : FlutterDesktopPluginRegistrarRef) (w : World) :
    Except String World × List Step :=
  (CodePlugin.RegisterWithRegistrar
      (PluginRegistrarManager.GetInstance.GetRegistrar registrar) w,
   [Step.resolveRegistrar PluginRegistrarManager.GetInstance registrar,
    Step.registerPlugin
      (PluginRegistrarManager.GetInstance.GetRegistrar registrar)])

/-- The host dispatch mechanism reaches a channel exactly when that channel
is registered for the given registrar. -/
def dispatchReaches (w : World) (registrar : PluginRegistrarWindows)
    (channel : String) : Prop :=
  (registrar, channel) ∈ w.channels

instance (w : World) (r : PluginRegistrarWindows) (c : String) :
    Decidable (dispatchReaches w r c) :=
  inferInstanceAs (Decidable ((r, c) ∈ w.channels))

/-- A valid registrar handle is a non-null one. -/
def validHandle (h : FlutterDesktopPluginRegistrarRef) : Prop :=
  h ≠ none

instance (h : FlutterDesktopPluginRegistrarRef) : Decidable (validHandle h) :=
  inferInstanceAs (Decidable (h ≠ none))

/-- The manager used by the first resolution step of a trace, if any. -/
def resolvingManager : List Step → Option PluginRegistrarManager
  | [] => none
  | Step.resolveRegistrar m _ :: _ => some m
  | _ :: rest => resolvingManager rest

/-- C++ access specifier. -/
inductive Access where
  | publicAcc
  | protectedAcc
  | privateAcc
deriving DecidableEq, Repr

/-- One base class of a C++ class declaration. -/
structure BaseSpec where
  name : String
  access : Access
deriving DecidableEq, Repr

/-- Kind of a C++ class member. -/
inductive MemberKind where
  | defaultCtor
  | copyCtor
  | dtor
  | copyAssign
  | staticFun
  | instanceMethod
deriving DecidableEq, Repr

/-- One member declaration of a C++ class, as written in a header: its name,
kind, access, whether it is declared virtual, deleted, or marked override,
and whether any of the provided source files defines a body for it. -/
structure MemberDecl where
  name : String
  kind : MemberKind
  access : Access
  isVirtual : Bool
  isDeleted : Bool
  isOverride : Bool
  bodyInProvidedFiles : Bool
deriving DecidableEq, Repr

/-- A C++ class declaration: name, base classes, members. -/
structure ClassDecl where
  name : String
  bases : List BaseSpec
  members : List MemberDecl
deriving DecidableEq, Repr

/-- The class `code::CodePlugin` exactly as declared in
`src/windows/code_plugin.h` lines 11-27: it derives publicly from
`flutter::Plugin`; its members, in source order, are the static
`RegisterWithRegistrar` (line 13, declaration only), the default constructor
(line 15, no body in the provided files), the virtual destructor (line 17,
no body in the provided files), the deleted copy constructor (line 20), the
deleted copy assignment operator (line 21), and the instance method
`HandleMethodCall` (lines 24-26, declaration only). No member is marked
override, and no provided file contains a body for any member. -/
def CodePluginDecl : ClassDecl :=
  { name := "CodePlugin"
    bases := [{ name := "flutter::Plugin", access := Access.publicAcc }]
    members :=
      [ { name := "RegisterWithRegistrar", kind := MemberKind.staticFun
          access := Access.publicAcc, isVirtual := false, isDeleted := false
          isOverride := false, bodyInProvidedFiles := false }
      , { name := "CodePlugin", kind := MemberKind.defaultCtor
          access := Access.publicAcc, isVirtual := false, isDeleted := false
          isOverride := false, bodyInProvidedFiles := false }
      , { name := "~CodePlugin", kind := MemberKind.dtor
          access := Access.publicAcc, isVirtual := true, isDeleted := false
          isOverride := false, bodyInProvidedFiles := false }
      , { name := "CodePlugin", kind := MemberKind.copyCtor
          access := Access.publicAcc, isVirtual := false, isDeleted := true
          isOverride := false, bodyInProvidedFiles := false }
      , { name := "operator=", kind := MemberKind.copyAssign
          access := Access.publicAcc, isVirtual := false, isDeleted := true
          isOverride := false, bodyInProvidedFiles := false }
      , { name := "HandleMethodCall", kind := MemberKind.instanceMethod
          access := Access.publicAcc, isVirtual := false, isDeleted := false
          isOverride := false, bodyInProvidedFiles := false } ] }

/-- The first member of a class with the given name. -/
def ClassDecl.memberNamed (c : ClassDecl) (n : String) : Option MemberDecl :=
  c.members.find? (fun m => m.name == n)

/-- The members of a class with the given kind. -/
def ClassDecl.membersOfKind (c : ClassDecl) (k : MemberKind) :
    List MemberDecl :=
  c.members.filter (fun m => m.kind == k)

/-- The behavioural public interface of a class: the names of its public,
non-deleted static functions and instance methods, constructors and the
destructor excluded. -/
def ClassDecl.behaviouralInterface (c : ClassDecl) : List String :=
  (c.members.filter (fun m =>
    m.access == Access.publicAcc && !m.isDeleted &&
    (m.kind == MemberKind.staticFun || m.kind == MemberKind.instanceMethod))).map
    (fun m => m.name)

/-- Which destructor runs when an instance of class `c` is destroyed through
a pointer to the base class: the derived destructor when the destructor is
declared virtual, otherwise only the base destructor. -/
def destructorInvokedViaBase (c : ClassDecl) (base : String) :
    Option String :=
  (c.members.find? (fun m => m.kind == MemberKind.dtor)).map
    (fun m => if m.isVirtual then c.name else base)

/-- C1: For every opaque registrar handle, the C API entry point performs
exactly two steps in order: it resolves the handle into the typed Windows
registrar through the plugin registrar manager, then invokes
`CodePlugin.RegisterWithRegistrar` on that typed registrar; its trace holds
nothing else, and its result is exactly that of the registration call. -/
theorem c1_entry_point_exactly_two_steps
    (h : FlutterDesktopPluginRegistrarRef) (w : World) :
    (CodePluginCApiRegisterWithRegistrar h w).2 =
      [Step.resolveRegistrar PluginRegistrarManager.GetInstance h,
       Step.registerPlugin (PluginRegistrarManager.GetInstance.GetRegistrar h)] ∧
    (CodePluginCApiRegisterWithRegistrar h w).1 =
      CodePlugin.RegisterWithRegistrar
        (PluginRegistrarManager.GetInstance.GetRegistrar h) w :=
  ⟨rfl, rfl⟩

/-- C2: For every valid (non-null) registrar handle, the registration entry
point completes without error, and afterwards the plugin channel is
reachable by the host dispatch mechanism for the resolved registrar. -/
theorem c2_registration_succeeds_and_channel_reachable
    (h : FlutterDesktopPluginRegistrarRef) (w : World)
    (hv : validHandle h) :
    ∃ w2 : World,
      (CodePluginCApiRegisterWithRegistrar h w).1 = Except.ok w2 ∧
      dispatchReaches w2 (PluginRegistrarManager.GetInstance.GetRegistrar h)
        codeChannelName := by
  refine ⟨_, rfl, ?_⟩
  exact List.mem_cons_self _ _

/-- Witness for C2 at the concrete handle `some 0` and an empty world. -/
theorem c2_witness :
    ∃ w2 : World,
      (CodePluginCApiRegisterWithRegistrar (some 0) ⟨[], [], []⟩).1 =
        Except.ok w2 ∧
      dispatchReaches w2
        (PluginRegistrarManager.GetInstance.GetRegistrar (some 0))
        codeChannelName :=
  c2_registration_succeeds_and_channel_reachable (some 0) ⟨[], [], []⟩
    (by decide)

/-- C3: The entry point defines no error conditions of its own: for every
registrar handle, the null handle included, it performs no validation, has
no error branch, and invokes registration unconditionally, its result being
exactly the registration result; failure handling is left to the host. -/
theorem c3_no_validation_unconditional_registration
    (h : FlutterDesktopPluginRegistrarRef) (w : World) :
    (CodePluginCApiRegisterWithRegistrar h w).1 =
      CodePlugin.RegisterWithRegistrar
        (PluginRegistrarManager.GetInstance.GetRegistrar h) w ∧
    Step.registerPlugin (PluginRegistrarManager.GetInstance.GetRegistrar h) ∈
      (CodePluginCApiRegisterWithRegistrar h w).2 ∧
    Step.registerPlugin (PluginRegistrarManager.GetInstance.GetRegistrar none) ∈
      (CodePluginCApiRegisterWithRegistrar none w).2 := by
  refine ⟨rfl, ?_, ?_⟩ <;> simp [CodePluginCApiRegisterWithRegistrar]

/-- C4: `HandleMethodCall` is only declared in the provided files: its
member declaration exists in the class, and no provided file defines a body
for it, so no dispatch logic, argument validation, or result-encoding
behaviour is defined anywhere in the provided files. -/
theorem c4_handle_method_call_declared_only :
    (CodePluginDecl.memberNamed "HandleMethodCall").isSome = true ∧
    (CodePluginDecl.memberNamed "HandleMethodCall").map
      MemberDecl.bodyInProvidedFiles = some false :=
  ⟨rfl, rfl⟩

/-- C5: The behavioural public interface of the plugin class, construction
and destruction aside, is exactly the static registration function and the
instance method-call handler; nothing else is exposed. -/
theorem c5_behavioural_interface_exactly_two :
    CodePluginDecl.behaviouralInterface =
      ["RegisterWithRegistrar", "HandleMethodCall"] :=
  rfl

/-- C6: The entry point creates or modifies no state owned by this
repository: for every execution, files and environment are unchanged and
the only effect is the single channel registration performed through the
framework-provided registrar. -/
theorem c6_no_owned_state_modified
    (h : FlutterDesktopPluginRegistrarRef) (w : World) :
    ∃ w2 : World,
      (CodePluginCApiRegisterWithRegistrar h w).1 = Except.ok w2 ∧
      w2.files = w.files ∧
      w2.env = w.env ∧
      w2.channels =
        (PluginRegistrarManager.GetInstance.GetRegistrar h, codeChannelName)
          :: w.channels :=
  ⟨_, rfl, rfl, rfl, rfl⟩

/-- C7: `CodePlugin` has exactly one inheritance relationship, deriving
publicly from `flutter::Plugin`, and no member of the class overrides base
behaviour, so the relationship carries no behaviour beyond satisfying the
required interface. -/
theorem c7_single_public_base_no_behaviour :
    CodePluginDecl.bases = [⟨"flutter::Plugin", Access.publicAcc⟩] ∧
    CodePluginDecl.members.all (fun m => !m.isOverride) = true :=
  ⟨rfl, rfl⟩

/-- C8: The copy constructor and the copy assignment operator of
`CodePlugin` are both deleted, and neither appears in the behavioural
interface, so no exposed operation can create a second plugin object
aliasing an existing one. -/
theorem c8_noncopyable_nonassignable :
    (CodePluginDecl.membersOfKind MemberKind.copyCtor).map
      MemberDecl.isDeleted = [true] ∧
    (CodePluginDecl.membersOfKind MemberKind.copyAssign).map
      MemberDecl.isDeleted = [true] ∧
    "operator=" ∉ CodePluginDecl.behaviouralInterface :=
  ⟨rfl, rfl, by decide⟩

/-- C9: Every invocation of the entry point resolves its handle through the
same process-wide singleton manager: for any two calls, with equal or
different handles and worlds, the resolution step of each trace uses the one
shared `PluginRegistrarManager.GetInstance`. -/
theorem c9_resolution_through_singleton_manager
    (h1 h2 : FlutterDesktopPluginRegistrarRef) (w1 w2 : World) :
    resolvingManager (CodePluginCApiRegisterWithRegistrar h1 w1).2 =
      some PluginRegistrarManager.GetInstance ∧
    resolvingManager (CodePluginCApiRegisterWithRegistrar h1 w1).2 =
      resolvingManager (CodePluginCApiRegisterWithRegistrar h2 w2).2 :=
  ⟨rfl, rfl⟩

/-- C10: The destructor of `CodePlugin` is declared virtual, so destruction
through a pointer to the base class `flutter::Plugin` invokes the derived
`CodePlugin` destructor. -/
theorem c10_virtual_destructor_invoked_via_base :
    (CodePluginDecl.memberNamed "~CodePlugin").map MemberDecl.isVirtual =
      some true ∧
    destructorInvokedViaBase CodePluginDecl "flutter::Plugin" =
      some "CodePlugin" :=
  ⟨rfl, rfl⟩

end DrawingBoardHook
